import Mathlib

/-!
# Todo service: handlers, schema descriptor and runtime defaults

A shallow embedding of `main.go` (the five REST handlers), `ent/schema/todo.go`
(the schema descriptor) and `ent/runtime.go` (the runtime `init`), followed by
theorems about the HTTP contract of the handlers.

Effects are made explicit:
* the store is passed in and returned by every data-access call;
* what the outside world decides during one call (whether the database fails,
  what `uuid.New` and `time.Now` return) is an `Oracle` argument;
* the library functions `uuid.Parse` and the JSON decoder behind
  `c.BodyParser` are the fields of `Env`.
-/

namespace TodoApp

/-! ## Data model -/

/-- A `uuid.UUID` value, seen as the number its sixteen bytes encode. -/
structure UUID where
  val : Nat
  deriving DecidableEq, Repr

/-- A `time.Time` value, as an offset from the zero time. -/
structure Time where
  unix : Int
  deriving DecidableEq, Repr

/-- The `ent.Todo` struct: the persisted entity and the target of `c.BodyParser`. -/
structure Todo where
  id : UUID
  task : String
  completed : Bool
  created_at : Time
  deriving DecidableEq, Repr

/-- The value of `new(ent.Todo)`: every field is the zero value of its type. -/
def Todo.zero : Todo := ⟨⟨0⟩, "", false, ⟨0⟩⟩

/-! ## Schema descriptor (`ent/schema/todo.go`) -/

/-- The functions of type `func() uuid.UUID` the schema names, kept symbolic. -/
inductive UUIDFunc where
  | uuidNew
  deriving DecidableEq, Repr

/-- The functions of type `func() time.Time` the schema names, kept symbolic. -/
inductive TimeFunc where
  | timeNow
  deriving DecidableEq, Repr

/-- A Go value of interface type `any`, as far as field defaults need it. -/
inductive GoValue where
  | nil
  | bool (b : Bool)
  | funcUUID (f : UUIDFunc)
  | funcTime (f : TimeFunc)
  deriving DecidableEq, Repr

/-- The type of a schema field. -/
inductive FieldType where
  | uuid
  | string
  | bool
  | time
  deriving DecidableEq, Repr

/-- The `field.Descriptor` of a schema field. -/
structure Descriptor where
  Name : String
  Info : FieldType
  Default : GoValue
  StorageKey : String
  Tag : String
  deriving DecidableEq, Repr

/-- The builder `field.UUID(name, uuid.UUID{})`. -/
def field.UUID (name : String) : Descriptor := ⟨name, .uuid, .nil, "", ""⟩

/-- The builder `field.Bool(name)`. -/
def field.Bool (name : String) : Descriptor := ⟨name, .bool, .nil, "", ""⟩

/-- The builder `field.Time(name)`. -/
def field.Time (name : String) : Descriptor := ⟨name, .time, .nil, "", ""⟩

/-- The builder `field.String(name)`. -/
def field.String (name : String) : Descriptor := ⟨name, .string, .nil, "", ""⟩

/-- The builder method `.Default(v)`. -/
def Descriptor.withDefault (d : Descriptor) (v : GoValue) : Descriptor :=
  ⟨d.Name, d.Info, v, d.StorageKey, d.Tag⟩

/-- The builder method `.StorageKey(key)`. -/
def Descriptor.withStorageKey (d : Descriptor) (key : String) : Descriptor :=
  ⟨d.Name, d.Info, d.Default, key, d.Tag⟩

/-- The builder method `.StructTag(tag)`. -/
def Descriptor.withStructTag (d : Descriptor) (tag : String) : Descriptor :=
  ⟨d.Name, d.Info, d.Default, d.StorageKey, tag⟩

/-- The method `Todo.Fields` of `ent/schema/todo.go`. -/
def Todo.Fields : List Descriptor :=
  [ ((field.UUID "id").withDefault (.funcUUID .uuidNew)).withStorageKey "oid",
    field.String "task",
    ((field.Bool "completed").withDefault (.bool false)).withStructTag "json:\"completed\"",
    (field.Time "created_at").withDefault (.funcTime .timeNow) ]

/-! ## Runtime defaults (`ent/runtime.go`) -/

/-- A Go panic raised by `init`. -/
inductive Panic where
  | indexOutOfRange (i : Nat)
  | typeAssertion (fieldName : String)
  deriving DecidableEq, Repr

/-- The package variables `todo.DefaultCompleted`, `todo.DefaultCreatedAt`, `todo.DefaultID`. -/
structure Defaults where
  DefaultCompleted : Bool
  DefaultCreatedAt : TimeFunc
  DefaultID : UUIDFunc
  deriving DecidableEq, Repr

/-- The index expression `fields[i]`, which panics out of range. -/
def index (fields : List Descriptor) (i : Nat) : Except Panic Descriptor :=
  match fields.get? i with
  | some d => .ok d
  | none => .error (.indexOutOfRange i)

/-- The type assertion `d.Default.(bool)`. -/
def assertBool (d : Descriptor) : Except Panic Bool :=
  match d.Default with
  | .bool b => .ok b
  | _ => .error (.typeAssertion d.Name)

/-- The type assertion `d.Default.(func() time.Time)`. -/
def assertFuncTime (d : Descriptor) : Except Panic TimeFunc :=
  match d.Default with
  | .funcTime f => .ok f
  | _ => .error (.typeAssertion d.Name)

/-- The type assertion `d.Default.(func() uuid.UUID)`. -/
def assertFuncUUID (d : Descriptor) : Except Panic UUIDFunc :=
  match d.Default with
  | .funcUUID f => .ok f
  | _ => .error (.typeAssertion d.Name)

/-- The function `init` of `ent/runtime.go`, in the order of its statements. -/
def init : Except Panic Defaults :=
  let todoFields := Todo.Fields
  match index todoFields 2 with
  | .error p => .error p
  | .ok todoDescCompleted =>
    match assertBool todoDescCompleted with
    | .error p => .error p
    | .ok defaultCompleted =>
      match index todoFields 3 with
      | .error p => .error p
      | .ok todoDescCreatedAt =>
        match assertFuncTime todoDescCreatedAt with
        | .error p => .error p
        | .ok defaultCreatedAt =>
          match index todoFields 0 with
          | .error p => .error p
          | .ok todoDescID =>
            match assertFuncUUID todoDescID with
            | .error p => .error p
            | .ok defaultID => .ok ⟨defaultCompleted, defaultCreatedAt, defaultID⟩

/-! ## The outside world -/

/-- What the outside world decides during one data-access call. -/
structure Oracle where
  /-- whether the database fails during the call (connection lost, SQL error) -/
  fault : Bool
  /-- what `uuid.New()` returns during the call -/
  uuidNew : UUID
  /-- what `time.Now()` returns during the call -/
  timeNow : Time
  deriving DecidableEq, Repr

/-- The fields of a JSON request body that name a field of `ent.Todo`. -/
structure TodoJSON where
  id : Option UUID
  task : Option String
  completed : Option Bool
  created_at : Option Time
  deriving DecidableEq, Repr

/-- The library functions the handlers call on request data. -/
structure Env where
  /-- the function `uuid.Parse`; `none` stands for its error -/
  uuidParse : String → Option UUID
  /-- the decoder behind `c.BodyParser`, content-type check included; `none` stands
  for its error -/
  decode : String → Option TodoJSON

/-- Decoding onto a struct: a field the body gives is assigned, any other is left as it was. -/
def TodoJSON.assign (j : TodoJSON) (t : Todo) : Todo :=
  ⟨j.id.getD t.id, j.task.getD t.task, j.completed.getD t.completed,
    j.created_at.getD t.created_at⟩

/-! ## Data-access layer -/

/-- The errors a data-access call returns. -/
inductive EntError where
  | notFound
  | constraint
  | driver
  deriving DecidableEq, Repr

/-- The rows of the `todos` table. -/
abbrev Store := List Todo

/-- The data-access calls the handlers make, each with the builder arguments the
handler passes, over a store of type `σ`. -/
structure Client (σ : Type) where
  /-- the call `client.Todo.Query().All(ctx)` -/
  queryAll : σ → Except EntError (List Todo) × σ
  /-- the call `client.Todo.Create().SetTask(task).SetCompleted(completed).Save(ctx)` -/
  createSave : String → Bool → σ → Except EntError Todo × σ
  /-- the call `client.Todo.Get(ctx, id)` -/
  get : UUID → σ → Except EntError Todo × σ
  /-- the call `client.Todo.UpdateOneID(id).SetTask(task).SetCompleted(completed).Save(ctx)` -/
  updateOneSave : UUID → String → Bool → σ → Except EntError Todo × σ
  /-- the call `client.Todo.DeleteOneID(id).Exec(ctx)` -/
  deleteOneExec : UUID → σ → Except EntError Unit × σ

/-- The row with the given id, if there is one. -/
def Store.lookup (rows : Store) (id : UUID) : Option Todo :=
  rows.find? (fun t => decide (t.id = id))

/-- Calling a `func() uuid.UUID` during the call the oracle describes. -/
def Oracle.callUUID (o : Oracle) : UUIDFunc → UUID
  | .uuidNew => o.uuidNew

/-- Calling a `func() time.Time` during the call the oracle describes. -/
def Oracle.callTime (o : Oracle) : TimeFunc → Time
  | .timeNow => o.timeNow

/-- The fields set on a create builder before `Save`. -/
structure TodoCreate where
  id : Option UUID
  task : Option String
  completed : Option Bool
  created_at : Option Time
  deriving DecidableEq, Repr

/-- Modelled from the spec: the generated create builder (`ent/todo_create.go`) is not
among the sources. `defaults` fills every field that has a schema default and was
not set: "generated at creation", "defaults to false", "set automatically at
creation". -/
def TodoCreate.defaults (d : Defaults) (o : Oracle) (b : TodoCreate) : TodoCreate :=
  ⟨some (b.id.getD (o.callUUID d.DefaultID)), b.task,
    some (b.completed.getD d.DefaultCompleted),
    some (b.created_at.getD (o.callTime d.DefaultCreatedAt))⟩

/-- Modelled from the spec: the generated create builder (`ent/todo_create.go`) is not
among the sources. `Save` applies the defaults, requires the required field `task`,
and inserts the row; the id is unique, so an id already in the table is refused; a
database failure leaves the table as it was. -/
def TodoCreate.Save (d : Defaults) (o : Oracle) (b : TodoCreate) (rows : Store) :
    Except EntError Todo × Store :=
  if o.fault then (.error .driver, rows) else
  match TodoCreate.defaults d o b with
  | ⟨some id, some task, some completed, some created_at⟩ =>
    if rows.any (fun t => decide (t.id = id)) then (.error .constraint, rows)
    else (.ok ⟨id, task, completed, created_at⟩, rows ++ [⟨id, task, completed, created_at⟩])
  | _ => (.error .constraint, rows)

/-- Modelled from the spec: the generated client (`ent/client.go`, `ent/todo_query.go`)
is not among the sources. `Query().All` returns every row. -/
def entQueryAll (o : Oracle) (rows : Store) : Except EntError (List Todo) × Store :=
  if o.fault then (.error .driver, rows) else (.ok rows, rows)

/-- Modelled from the spec: the generated client (`ent/client.go`) is not among the
sources. `Get` returns the row with the id, and the not-found error when the row is
missing ("fetching a non-existent id returns not-found"). -/
def entGet (o : Oracle) (id : UUID) (rows : Store) : Except EntError Todo × Store :=
  if o.fault then (.error .driver, rows) else
  match rows.lookup id with
  | some t => (.ok t, rows)
  | none => (.error .notFound, rows)

/-- Modelled from the spec: the generated update builder (`ent/todo_update.go`) is not
among the sources. `UpdateOneID(id).SetTask(task).SetCompleted(completed).Save`
writes the two fields that were set on the row with the id and returns that row; it
returns the not-found error when the row is missing ("updating a non-existent id
returns not-found"; `id` and `created_at` are "immutable"). -/
def entUpdateOneSave (o : Oracle) (id : UUID) (task : String) (completed : Bool)
    (rows : Store) : Except EntError Todo × Store :=
  if o.fault then (.error .driver, rows) else
  match rows.lookup id with
  | some t =>
    (.ok ⟨t.id, task, completed, t.created_at⟩,
      rows.map (fun r => if r.id = id then ⟨r.id, task, completed, r.created_at⟩ else r))
  | none => (.error .notFound, rows)

/-- Modelled from the spec: the generated delete builder (`ent/todo_delete.go`) is not
among the sources. `DeleteOneID(id).Exec` removes the row with the id ("deleting
removes the row") and returns the not-found error when no row was removed. -/
def entDeleteOneExec (o : Oracle) (id : UUID) (rows : Store) : Except EntError Unit × Store :=
  if o.fault then (.error .driver, rows) else
  match rows.lookup id with
  | some _ => (.ok (), rows.filter (fun r => !decide (r.id = id)))
  | none => (.error .notFound, rows)

/-- Modelled from the spec: the generated data-access client (package `ent`) is not
among the sources. The client over a table of rows, with the runtime defaults `d`
and the outside world `o` of the call. -/
def entClient (d : Defaults) (o : Oracle) : Client Store where
  queryAll := entQueryAll o
  createSave := fun task completed =>
    TodoCreate.Save d o ⟨none, some task, some completed, none⟩
  get := entGet o
  updateOneSave := entUpdateOneSave o
  deleteOneExec := entDeleteOneExec o

/-! ## HTTP layer (`main.go`) -/

/-- The constant `fiber.StatusOK`. -/
def StatusOK : Nat := 200
/-- The constant `fiber.StatusCreated`. -/
def StatusCreated : Nat := 201
/-- The constant `fiber.StatusBadRequest`. -/
def StatusBadRequest : Nat := 400
/-- The constant `fiber.StatusNotFound`. -/
def StatusNotFound : Nat := 404
/-- The constant `fiber.StatusInternalServerError`. -/
def StatusInternalServerError : Nat := 500

/-- The value handed to `c.JSON`. -/
inductive Payload where
  /-- a `fiber.Map` with string values, as its key/value pairs -/
  | map (kv : List (String × String))
  /-- one Todo -/
  | todo (t : Todo)
  /-- a list of Todos -/
  | todos (ts : List Todo)
  /-- nothing written yet -/
  | empty
  deriving DecidableEq, Repr

/-- The response a handler leaves in the context. -/
structure Response where
  status : Nat
  body : Payload
  deriving DecidableEq, Repr

/-- The request part of a `fiber.Ctx`, with the response being built. -/
structure Ctx where
  params : List (String × String)
  body : String
  response : Response

/-- A context for a request, before any handler ran: the status is 200. -/
def Ctx.request (params : List (String × String)) (body : String) : Ctx :=
  ⟨params, body, ⟨StatusOK, .empty⟩⟩

/-- The method `c.Params(key)`: the route parameter, or the empty string. -/
def Ctx.Params (c : Ctx) (key : String) : String :=
  (c.params.lookup key).getD ""

/-- The method `c.Status(code)`. -/
def Ctx.Status (c : Ctx) (code : Nat) : Ctx :=
  ⟨c.params, c.body, ⟨code, c.response.body⟩⟩

/-- The method `c.JSON(v)`, giving the response sent. -/
def Ctx.JSON (c : Ctx) (v : Payload) : Response :=
  ⟨c.response.status, v⟩

/-- The method `c.BodyParser(t)`: decode the body onto `t`; `none` stands for its error. -/
def Ctx.BodyParser (env : Env) (c : Ctx) (t : Todo) : Option Todo :=
  match env.decode c.body with
  | some j => some (j.assign t)
  | none => none

/-- The handler `getTodos`. -/
def getTodos {σ : Type} (client : Client σ) (c : Ctx) (s : σ) : Response × σ :=
  match client.queryAll s with
  | (.error _, s') =>
    ((c.Status StatusInternalServerError).JSON (.map [("error", "Cannot retrieve todos")]), s')
  | (.ok todos, s') => (c.JSON (.todos todos), s')

/-- The handler `createTodo`. -/
def createTodo {σ : Type} (env : Env) (client : Client σ) (c : Ctx) (s : σ) : Response × σ :=
  match c.BodyParser env Todo.zero with
  | none => ((c.Status StatusBadRequest).JSON (.map [("error", "Cannot parse JSON")]), s)
  | some t =>
    match client.createSave t.task t.completed s with
    | (.error _, s') =>
      ((c.Status StatusInternalServerError).JSON (.map [("error", "Cannot create todo")]), s')
    | (.ok created, s') => ((c.Status StatusCreated).JSON (.todo created), s')

/-- The handler `getTodo`. -/
def getTodo {σ : Type} (env : Env) (client : Client σ) (c : Ctx) (s : σ) : Response × σ :=
  match env.uuidParse (c.Params "id") with
  | none => ((c.Status StatusBadRequest).JSON (.map [("error", "Invalid ID")]), s)
  | some id =>
    match client.get id s with
    | (.error _, s') =>
      ((c.Status StatusNotFound).JSON (.map [("error", "Todo not found")]), s')
    | (.ok t, s') => (c.JSON (.todo t), s')

/-- The handler `updateTodo`. -/
def updateTodo {σ : Type} (env : Env) (client : Client σ) (c : Ctx) (s : σ) : Response × σ :=
  match env.uuidParse (c.Params "id") with
  | none => ((c.Status StatusBadRequest).JSON (.map [("error", "Invalid ID")]), s)
  | some id =>
    match c.BodyParser env Todo.zero with
    | none => ((c.Status StatusBadRequest).JSON (.map [("error", "Cannot parse JSON")]), s)
    | some t =>
      match client.updateOneSave id t.task t.completed s with
      | (.error _, s') =>
        ((c.Status StatusNotFound).JSON (.map [("error", "Todo not found")]), s')
      | (.ok updated, s') => (c.JSON (.todo updated), s')

/-- The handler `deleteTodo`. -/
def deleteTodo {σ : Type} (env : Env) (client : Client σ) (c : Ctx) (s : σ) : Response × σ :=
  match env.uuidParse (c.Params "id") with
  | none => ((c.Status StatusBadRequest).JSON (.map [("error", "Invalid ID")]), s)
  | some id =>
    match client.deleteOneExec id s with
    | (.error _, s') =>
      ((c.Status StatusNotFound).JSON (.map [("error", "Todo not found")]), s')
    | (.ok _, s') => (c.JSON (.map [("result", "Todo deleted")]), s')

/-! ## Concrete values used to instantiate the theorems -/

/-- A sample of the library functions: three texts are well-formed ids and four texts
are bodies that decode. -/
def sampleEnv : Env where
  uuidParse := fun s =>
    if s = "1" then some ⟨1⟩ else if s = "2" then some ⟨2⟩ else if s = "3" then some ⟨3⟩ else none
  decode := fun s =>
    if s = "task" then some ⟨none, some "milk", none, none⟩
    else if s = "done" then some ⟨none, none, some true, none⟩
    else if s = "all" then some ⟨some ⟨9⟩, some "tea", some true, some ⟨77⟩⟩
    else if s = "none" then some ⟨none, none, none, none⟩
    else none

/-- A sample table of two rows. -/
def sampleRows : Store :=
  [⟨⟨1⟩, "bread", true, ⟨10⟩⟩, ⟨⟨2⟩, "eggs", false, ⟨20⟩⟩]

/-- The runtime defaults the schema gives. -/
def sampleDefaults : Defaults := ⟨false, .timeNow, .uuidNew⟩

/-- A call during which the database works, `uuid.New` gives 3 and `time.Now` gives 30. -/
def healthy : Oracle := ⟨false, ⟨3⟩, ⟨30⟩⟩

/-- A call during which the database fails. -/
def failing : Oracle := ⟨true, ⟨3⟩, ⟨30⟩⟩

/-! ## Lemmas on the table -/

theorem lookup_eq_none_of_absent (rows : Store) (id : UUID)
    (h : ∀ t ∈ rows, t.id ≠ id) : rows.lookup id = none := by
  unfold Store.lookup
  rw [List.find?_eq_none]
  intro t ht
  simpa using h t ht

theorem lookup_filter_self (rows : Store) (id : UUID) :
    Store.lookup (rows.filter (fun r => !decide (r.id = id))) id = none := by
  apply lookup_eq_none_of_absent
  intro t ht
  simpa using (List.mem_filter.mp ht).2

theorem lookup_cons (r : Todo) (rs : Store) (id : UUID) :
    Store.lookup (r :: rs) id = if r.id = id then some r else Store.lookup rs id := by
  by_cases h : r.id = id <;> simp [Store.lookup, List.find?_cons, h]

theorem lookup_filter_other (rows : Store) (id id2 : UUID) (h : id2 ≠ id) :
    Store.lookup (rows.filter (fun r => !decide (r.id = id))) id2 = Store.lookup rows id2 := by
  induction rows with
  | nil => rfl
  | cons r rs ih =>
    by_cases hr : r.id = id
    · have hf : (r :: rs).filter (fun r => !decide (r.id = id))
          = rs.filter (fun r => !decide (r.id = id)) := by
        simp [List.filter_cons, hr]
      have hne : ¬ r.id = id2 := fun e => h (e.symm.trans hr)
      rw [hf, ih, lookup_cons, if_neg hne]
    · have hf : (r :: rs).filter (fun r => !decide (r.id = id))
          = r :: rs.filter (fun r => !decide (r.id = id)) := by
        simp [List.filter_cons, hr]
      rw [hf, lookup_cons, lookup_cons, ih]

theorem lookup_map_self (rows : Store) (id : UUID) (task : String) (completed : Bool)
    (old : Todo) (h : Store.lookup rows id = some old) :
    Store.lookup
      (rows.map (fun r => if r.id = id then (⟨r.id, task, completed, r.created_at⟩ : Todo) else r))
      id = some ⟨old.id, task, completed, old.created_at⟩ := by
  induction rows with
  | nil => simp [Store.lookup] at h
  | cons r rs ih =>
    rw [List.map_cons, lookup_cons]
    rw [lookup_cons] at h
    by_cases hr : r.id = id
    · rw [if_pos hr] at h
      cases h
      rw [if_pos hr, if_pos hr]
    · rw [if_neg hr] at h
      rw [if_neg hr, if_neg hr]
      exact ih h

theorem lookup_map_other (rows : Store) (id id2 : UUID) (task : String) (completed : Bool)
    (h : id2 ≠ id) :
    Store.lookup
      (rows.map (fun r => if r.id = id then (⟨r.id, task, completed, r.created_at⟩ : Todo) else r))
      id2 = Store.lookup rows id2 := by
  induction rows with
  | nil => rfl
  | cons r rs ih =>
    rw [List.map_cons, lookup_cons, lookup_cons, ih]
    by_cases hr : r.id = id
    · have hne : ¬ r.id = id2 := fun e => h (e.symm.trans hr)
      rw [if_pos hr, if_neg hne, if_neg hne]
    · rw [if_neg hr]

theorem lookup_id (rows : Store) (id : UUID) (t : Todo) (h : Store.lookup rows id = some t) :
    t.id = id ∧ t ∈ rows := by
  unfold Store.lookup at h
  exact ⟨by simpa using List.find?_some h, List.mem_of_find?_eq_some h⟩

theorem getTodo_healthy (env : Env) (d : Defaults) (o : Oracle)
    (params : List (String × String)) (body : String) (rows : Store) (id : UUID)
    (hid : env.uuidParse ((Ctx.request params body).Params "id") = some id)
    (ho : o.fault = false) :
    getTodo env (entClient d o) (Ctx.request params body) rows
      = match Store.lookup rows id with
        | some t => (⟨200, .todo t⟩, rows)
        | none => (⟨404, .map [("error", "Todo not found")]⟩, rows) := by
  simp only [getTodo, hid, entClient, entGet, ho]
  cases Store.lookup rows id <;> rfl

theorem getTodo_failing (env : Env) (d : Defaults) (o : Oracle)
    (params : List (String × String)) (body : String) (rows : Store) (id : UUID)
    (hid : env.uuidParse ((Ctx.request params body).Params "id") = some id)
    (ho : o.fault = true) :
    getTodo env (entClient d o) (Ctx.request params body) rows
      = (⟨404, .map [("error", "Todo not found")]⟩, rows) := by
  simp only [getTodo, hid, entClient, entGet, ho]
  rfl

theorem deleteTodo_ok (env : Env) (d : Defaults) (o : Oracle)
    (params : List (String × String)) (body : String) (rows : Store) (id : UUID)
    (hid : env.uuidParse ((Ctx.request params body).Params "id") = some id)
    (hok : (deleteTodo env (entClient d o) (Ctx.request params body) rows).1.status = 200) :
    deleteTodo env (entClient d o) (Ctx.request params body) rows
      = (⟨200, .map [("result", "Todo deleted")]⟩,
          rows.filter (fun r => !decide (r.id = id))) := by
  simp only [deleteTodo, hid, entClient, entDeleteOneExec] at hok ⊢
  cases ho : o.fault
  · cases hl : Store.lookup rows id
    · rw [ho, hl] at hok
      simp [Ctx.JSON, Ctx.Status, StatusNotFound] at hok
    · rfl
  · rw [ho] at hok
    simp [Ctx.JSON, Ctx.Status, StatusNotFound] at hok

theorem updateTodo_ok (env : Env) (d : Defaults) (o : Oracle)
    (params : List (String × String)) (body : String) (rows : Store) (id : UUID)
    (j : TodoJSON) (old : Todo)
    (hid : env.uuidParse ((Ctx.request params body).Params "id") = some id)
    (hbody : env.decode body = some j)
    (hold : Store.lookup rows id = some old)
    (hok : (updateTodo env (entClient d o) (Ctx.request params body) rows).1.status = 200) :
    updateTodo env (entClient d o) (Ctx.request params body) rows
      = (⟨200, .todo ⟨old.id, j.task.getD "", j.completed.getD false, old.created_at⟩⟩,
          rows.map (fun r => if r.id = id then
            (⟨r.id, j.task.getD "", j.completed.getD false, r.created_at⟩ : Todo) else r)) := by
  have hb : (Ctx.request params body).BodyParser env Todo.zero = some (j.assign Todo.zero) := by
    simp [Ctx.BodyParser, Ctx.request, hbody]
  simp only [updateTodo, hid, hb, entClient, entUpdateOneSave, hold] at hok ⊢
  cases ho : o.fault
  · rfl
  · rw [ho] at hok
    simp [Ctx.JSON, Ctx.Status, StatusNotFound] at hok

theorem createTodo_of_save_ok {σ : Type} (env : Env) (client : Client σ)
    (params : List (String × String)) (body : String) (s s2 : σ) (j : TodoJSON)
    (created : Todo)
    (hbody : env.decode body = some j)
    (hsave : client.createSave (j.assign Todo.zero).task (j.assign Todo.zero).completed s
      = (.ok created, s2)) :
    createTodo env client (Ctx.request params body) s = (⟨201, .todo created⟩, s2) := by
  have hb : (Ctx.request params body).BodyParser env Todo.zero = some (j.assign Todo.zero) := by
    simp [Ctx.BodyParser, Ctx.request, hbody]
  simp only [createTodo, hb, hsave]
  rfl

theorem entCreate_ok (o : Oracle) (task : String) (completed : Bool) (rows rows2 : Store)
    (created : Todo)
    (hsave : (entClient ⟨false, .timeNow, .uuidNew⟩ o).createSave task completed rows
      = (.ok created, rows2)) :
    created = ⟨o.uuidNew, task, completed, o.timeNow⟩ ∧ rows2 = rows ++ [created] ∧
    ∀ r ∈ rows, r.id ≠ o.uuidNew := by
  simp only [entClient, TodoCreate.Save, TodoCreate.defaults, Oracle.callUUID,
    Oracle.callTime, Option.getD] at hsave
  cases ho : o.fault
  · cases ha : rows.any (fun t => decide (t.id = o.uuidNew))
    · rw [ho] at hsave
      simp only [ha, Bool.false_eq_true, if_false, Prod.mk.injEq, Except.ok.injEq] at hsave
      obtain ⟨h1, h2⟩ := hsave
      refine ⟨h1.symm, ?_, ?_⟩
      · rw [← h2, ← h1]
      · intro t ht e
        have := (List.any_eq_true (p := fun t => decide (t.id = o.uuidNew))).mpr
          ⟨t, ht, by simpa using e⟩
        rw [ha] at this
        cases this
    · rw [ho] at hsave
      simp [ha] at hsave
  · rw [ho] at hsave
    simp at hsave

/-! ## The runtime defaults agree with the schema -/

/-- C9: `Todo.Fields` has exactly the four fields id, task, completed, created_at in
this order; index 0 is the id field whose default is a UUID generator, index 2 the
completed field whose default is the boolean false, index 3 the created_at field whose
default is a time generator; so `init` indexes in bounds, its three type assertions
succeed, and it sets `DefaultCompleted` to false. -/
theorem C9_init_matches_schema :
    Todo.Fields.map Descriptor.Name = ["id", "task", "completed", "created_at"] ∧
    Todo.Fields.length = 4 ∧
    (∃ d0, index Todo.Fields 0 = .ok d0 ∧ d0.Name = "id" ∧ d0.Info = .uuid ∧
      d0.Default = .funcUUID .uuidNew ∧ assertFuncUUID d0 = .ok .uuidNew) ∧
    (∃ d2, index Todo.Fields 2 = .ok d2 ∧ d2.Name = "completed" ∧ d2.Info = .bool ∧
      d2.Default = .bool false ∧ assertBool d2 = .ok false) ∧
    (∃ d3, index Todo.Fields 3 = .ok d3 ∧ d3.Name = "created_at" ∧ d3.Info = .time ∧
      d3.Default = .funcTime .timeNow ∧ assertFuncTime d3 = .ok .timeNow) ∧
    init = .ok ⟨false, .timeNow, .uuidNew⟩ ∧
    (∀ d, init = .ok d → d.DefaultCompleted = false) := by
  refine ⟨rfl, rfl, ⟨_, rfl, rfl, rfl, rfl, rfl⟩, ⟨_, rfl, rfl, rfl, rfl, rfl⟩,
    ⟨_, rfl, rfl, rfl, rfl, rfl⟩, rfl, ?_⟩
  intro d hd
  have h : init = .ok ⟨false, .timeNow, .uuidNew⟩ := rfl
  rw [h] at hd
  cases hd
  rfl

/-! ## Bad requests -/

/-- C3: when the id parameter is not a well-formed UUID, `getTodo`, `updateTodo` and
`deleteTodo` each answer 400 with the body error = "Invalid ID", whatever the request
body is, and hand back the store they were given, for every data-access client: no
data-access call is made. -/
theorem C3_invalid_id {σ : Type} (env : Env) (client : Client σ)
    (params : List (String × String)) (body : String) (s : σ)
    (hid : env.uuidParse ((Ctx.request params body).Params "id") = none) :
    getTodo env client (Ctx.request params body) s
        = (⟨400, .map [("error", "Invalid ID")]⟩, s) ∧
    updateTodo env client (Ctx.request params body) s
        = (⟨400, .map [("error", "Invalid ID")]⟩, s) ∧
    deleteTodo env client (Ctx.request params body) s
        = (⟨400, .map [("error", "Invalid ID")]⟩, s) := by
  refine ⟨?_, ?_, ?_⟩
  · simp only [getTodo, hid]; rfl
  · simp only [updateTodo, hid]; rfl
  · simp only [deleteTodo, hid]; rfl

theorem C3_invalid_id_witness :
    sampleEnv.uuidParse ((Ctx.request [("id", "x1")] "all").Params "id") = none ∧
    getTodo sampleEnv (entClient sampleDefaults healthy) (Ctx.request [("id", "x1")] "all")
        sampleRows = (⟨400, .map [("error", "Invalid ID")]⟩, sampleRows) :=
  ⟨by decide, (C3_invalid_id sampleEnv (entClient sampleDefaults healthy)
    [("id", "x1")] "all" sampleRows (by decide)).1⟩

/-- C8: when the request body does not parse, `createTodo` answers 400 with the body
error = "Cannot parse JSON" and hands back the store it was given, and so does
`updateTodo` when the id parameter is well-formed; when the id parameter is malformed
too, `updateTodo` answers "Invalid ID". This holds for every data-access client. -/
theorem C8_unparsable_body {σ : Type} (env : Env) (client : Client σ)
    (params : List (String × String)) (body : String) (s : σ)
    (hbody : env.decode body = none) :
    createTodo env client (Ctx.request params body) s
        = (⟨400, .map [("error", "Cannot parse JSON")]⟩, s) ∧
    (∀ id, env.uuidParse ((Ctx.request params body).Params "id") = some id →
      updateTodo env client (Ctx.request params body) s
        = (⟨400, .map [("error", "Cannot parse JSON")]⟩, s)) ∧
    (env.uuidParse ((Ctx.request params body).Params "id") = none →
      updateTodo env client (Ctx.request params body) s
        = (⟨400, .map [("error", "Invalid ID")]⟩, s)) := by
  have hb : (Ctx.request params body).BodyParser env Todo.zero = none := by
    simp [Ctx.BodyParser, Ctx.request, hbody]
  refine ⟨?_, ?_, ?_⟩
  · simp only [createTodo, hb]; rfl
  · intro id hid
    simp only [updateTodo, hid, hb]; rfl
  · intro hid
    simp only [updateTodo, hid]; rfl

theorem C8_unparsable_body_witness :
    sampleEnv.decode "oops" = none ∧
    createTodo sampleEnv (entClient sampleDefaults healthy) (Ctx.request [("id", "1")] "oops")
        sampleRows = (⟨400, .map [("error", "Cannot parse JSON")]⟩, sampleRows) ∧
    updateTodo sampleEnv (entClient sampleDefaults healthy) (Ctx.request [("id", "1")] "oops")
        sampleRows = (⟨400, .map [("error", "Cannot parse JSON")]⟩, sampleRows) ∧
    updateTodo sampleEnv (entClient sampleDefaults healthy) (Ctx.request [("id", "x1")] "oops")
        sampleRows = (⟨400, .map [("error", "Invalid ID")]⟩, sampleRows) :=
  ⟨by decide,
    (C8_unparsable_body sampleEnv (entClient sampleDefaults healthy) [("id", "1")] "oops"
      sampleRows (by decide)).1,
    (C8_unparsable_body sampleEnv (entClient sampleDefaults healthy) [("id", "1")] "oops"
      sampleRows (by decide)).2.1 ⟨1⟩ (by decide),
    (C8_unparsable_body sampleEnv (entClient sampleDefaults healthy) [("id", "x1")] "oops"
      sampleRows (by decide)).2.2 (by decide)⟩

/-! ## Missing rows -/

/-- C6: for every table and every well-formed id that no row of it has, `getTodo`
answers 404 with the body error = "Todo not found" and the table is unchanged;
this holds whether or not the database fails during the call. -/
theorem C6_get_absent (env : Env) (d : Defaults) (o : Oracle)
    (params : List (String × String)) (body : String) (rows : Store) (id : UUID)
    (hid : env.uuidParse ((Ctx.request params body).Params "id") = some id)
    (habs : ∀ t ∈ rows, t.id ≠ id) :
    getTodo env (entClient d o) (Ctx.request params body) rows
      = (⟨404, .map [("error", "Todo not found")]⟩, rows) := by
  have hl := lookup_eq_none_of_absent rows id habs
  simp only [getTodo, hid, entClient, entGet, hl]
  cases o.fault <;> rfl

theorem C6_get_absent_witness :
    sampleEnv.uuidParse ((Ctx.request [("id", "3")] "").Params "id") = some ⟨3⟩ ∧
    (∀ t ∈ sampleRows, t.id ≠ ⟨3⟩) ∧
    getTodo sampleEnv (entClient sampleDefaults healthy) (Ctx.request [("id", "3")] "")
      sampleRows = (⟨404, .map [("error", "Todo not found")]⟩, sampleRows) :=
  ⟨by decide, by decide,
    C6_get_absent sampleEnv sampleDefaults healthy [("id", "3")] "" sampleRows ⟨3⟩
      (by decide) (by decide)⟩

/-- C7: for every table, every well-formed id that no row of it has and every body
that parses, `updateTodo` answers 404 with the body error = "Todo not found" and the
table is unchanged: no row is created or modified. -/
theorem C7_update_absent (env : Env) (d : Defaults) (o : Oracle)
    (params : List (String × String)) (body : String) (rows : Store) (id : UUID)
    (j : TodoJSON)
    (hid : env.uuidParse ((Ctx.request params body).Params "id") = some id)
    (hbody : env.decode body = some j)
    (habs : ∀ t ∈ rows, t.id ≠ id) :
    updateTodo env (entClient d o) (Ctx.request params body) rows
      = (⟨404, .map [("error", "Todo not found")]⟩, rows) := by
  have hl := lookup_eq_none_of_absent rows id habs
  have hb : (Ctx.request params body).BodyParser env Todo.zero = some (j.assign Todo.zero) := by
    simp [Ctx.BodyParser, Ctx.request, hbody]
  simp only [updateTodo, hid, hb, entClient, entUpdateOneSave, hl]
  cases o.fault <;> rfl

theorem C7_update_absent_witness :
    sampleEnv.uuidParse ((Ctx.request [("id", "3")] "all").Params "id") = some ⟨3⟩ ∧
    sampleEnv.decode "all" = some ⟨some ⟨9⟩, some "tea", some true, some ⟨77⟩⟩ ∧
    (∀ t ∈ sampleRows, t.id ≠ ⟨3⟩) ∧
    updateTodo sampleEnv (entClient sampleDefaults healthy) (Ctx.request [("id", "3")] "all")
      sampleRows = (⟨404, .map [("error", "Todo not found")]⟩, sampleRows) :=
  ⟨by decide, by decide, by decide,
    C7_update_absent sampleEnv sampleDefaults healthy [("id", "3")] "all" sampleRows ⟨3⟩
      ⟨some ⟨9⟩, some "tea", some true, some ⟨77⟩⟩ (by decide) (by decide) (by decide)⟩

/-! ## Database failures -/

/-- C1: at a request for the id of a row that is in the table, made while the database
fails, `getTodo`, `updateTodo` and `deleteTodo` answer 404 "Todo not found" and not
500, although the row is not missing; `getTodos` and `createTodo` answer 500 at the
same failure. -/
theorem C1_db_failure_answers_not_found :
    sampleRows.lookup ⟨1⟩ = some ⟨⟨1⟩, "bread", true, ⟨10⟩⟩ ∧
    (entClient sampleDefaults failing).get ⟨1⟩ sampleRows = (.error .driver, sampleRows) ∧
    getTodo sampleEnv (entClient sampleDefaults failing) (Ctx.request [("id", "1")] "")
      sampleRows = (⟨404, .map [("error", "Todo not found")]⟩, sampleRows) ∧
    updateTodo sampleEnv (entClient sampleDefaults failing) (Ctx.request [("id", "1")] "task")
      sampleRows = (⟨404, .map [("error", "Todo not found")]⟩, sampleRows) ∧
    deleteTodo sampleEnv (entClient sampleDefaults failing) (Ctx.request [("id", "1")] "")
      sampleRows = (⟨404, .map [("error", "Todo not found")]⟩, sampleRows) ∧
    getTodos (entClient sampleDefaults failing) (Ctx.request [] "") sampleRows
      = (⟨500, .map [("error", "Cannot retrieve todos")]⟩, sampleRows) ∧
    createTodo sampleEnv (entClient sampleDefaults failing) (Ctx.request [] "task") sampleRows
      = (⟨500, .map [("error", "Cannot create todo")]⟩, sampleRows) := by
  refine ⟨by decide, rfl, by decide, by decide, by decide, by decide, by decide⟩

/-! ## Creating -/

/-- C2: when the body of a `createTodo` request parses and the save succeeds (the
data-access call returns a Todo), the answer has status 201 and carries that Todo,
which is the row added to the table; its id is the one the default of the data-access
layer generated, whatever id the body gives, and its completed is false whenever the
body gives no completed field. -/
theorem C2_create_generated_id (env : Env) (d : Defaults) (o : Oracle)
    (params : List (String × String)) (body : String) (rows rows2 : Store) (j : TodoJSON)
    (created : Todo)
    (hbody : env.decode body = some j)
    (hd : init = .ok d)
    (hsave : (entClient d o).createSave (j.assign Todo.zero).task (j.assign Todo.zero).completed
      rows = (.ok created, rows2)) :
    createTodo env (entClient d o) (Ctx.request params body) rows
      = (⟨201, .todo created⟩, rows2) ∧
    (createTodo env (entClient d o) (Ctx.request params body) rows).1.status = 201 ∧
    rows2 = rows ++ [created] ∧
    created.id = o.callUUID d.DefaultID ∧
    created.id = o.uuidNew ∧
    (∀ r ∈ rows, r.id ≠ created.id) ∧
    (j.completed = none → created.completed = false) ∧
    (∀ b, j.completed = some b → created.completed = b) ∧
    created.task = j.task.getD "" ∧
    created.created_at = o.timeNow := by
  have h1 := createTodo_of_save_ok env (entClient d o) params body rows rows2 j created
    hbody hsave
  have hinit : init = .ok ⟨false, .timeNow, .uuidNew⟩ := rfl
  rw [hinit] at hd
  cases hd
  obtain ⟨hc, hr, hfresh⟩ := entCreate_ok o _ _ rows rows2 created hsave
  refine ⟨h1, by rw [h1], hr, ?_, ?_, ?_, ?_, ?_, ?_, ?_⟩
  · rw [hc]; rfl
  · rw [hc]
  · rw [hc]; exact hfresh
  · intro hj
    rw [hc]
    simp [TodoJSON.assign, Todo.zero, hj]
  · intro b hj
    rw [hc]
    simp [TodoJSON.assign, hj]
  · rw [hc]; rfl
  · rw [hc]

theorem C2_create_generated_id_witness :
    (sampleEnv.decode "task" = some ⟨none, some "milk", none, none⟩ ∧
      init = .ok sampleDefaults ∧
      createTodo sampleEnv (entClient sampleDefaults healthy) (Ctx.request [] "task") sampleRows
        = (⟨201, .todo ⟨⟨3⟩, "milk", false, ⟨30⟩⟩⟩,
            sampleRows ++ [⟨⟨3⟩, "milk", false, ⟨30⟩⟩]) ∧
      ((none : Option Bool) = none →
        (⟨⟨3⟩, "milk", false, ⟨30⟩⟩ : Todo).completed = false)) ∧
    (sampleEnv.decode "all" = some ⟨some ⟨9⟩, some "tea", some true, some ⟨77⟩⟩ ∧
      createTodo sampleEnv (entClient sampleDefaults healthy) (Ctx.request [] "all") sampleRows
        = (⟨201, .todo ⟨⟨3⟩, "tea", true, ⟨30⟩⟩⟩,
            sampleRows ++ [⟨⟨3⟩, "tea", true, ⟨30⟩⟩]) ∧
      (⟨⟨3⟩, "tea", true, ⟨30⟩⟩ : Todo).id = healthy.uuidNew) :=
  ⟨⟨by decide, rfl,
    (C2_create_generated_id sampleEnv sampleDefaults healthy [] "task" sampleRows
      (sampleRows ++ [(⟨⟨3⟩, "milk", false, ⟨30⟩⟩ : Todo)]) ⟨none, some "milk", none, none⟩
      ⟨⟨3⟩, "milk", false, ⟨30⟩⟩ (by decide) rfl (by rfl)).1,
    (C2_create_generated_id sampleEnv sampleDefaults healthy [] "task" sampleRows
      (sampleRows ++ [(⟨⟨3⟩, "milk", false, ⟨30⟩⟩ : Todo)]) ⟨none, some "milk", none, none⟩
      ⟨⟨3⟩, "milk", false, ⟨30⟩⟩ (by decide) rfl (by rfl)).2.2.2.2.2.2.1⟩,
    ⟨by decide,
    (C2_create_generated_id sampleEnv sampleDefaults healthy [] "all" sampleRows
      (sampleRows ++ [(⟨⟨3⟩, "tea", true, ⟨30⟩⟩ : Todo)]) ⟨some ⟨9⟩, some "tea", some true, some ⟨77⟩⟩
      ⟨⟨3⟩, "tea", true, ⟨30⟩⟩ (by decide) rfl (by rfl)).1,
    (C2_create_generated_id sampleEnv sampleDefaults healthy [] "all" sampleRows
      (sampleRows ++ [(⟨⟨3⟩, "tea", true, ⟨30⟩⟩ : Todo)]) ⟨some ⟨9⟩, some "tea", some true, some ⟨77⟩⟩
      ⟨⟨3⟩, "tea", true, ⟨30⟩⟩ (by decide) rfl (by rfl)).2.2.2.2.1⟩⟩

/-! ## Deleting -/

/-- C4: for every table and every well-formed id, once `deleteTodo` on that id
succeeded (status 200, and then the body is result = "Todo deleted"), `getTodo` on the
same id answers 404 "Todo not found", and `getTodo` on any other id answers what it
answered on the table before the deletion: a Todo with another id is still returned,
unchanged. -/
theorem C4_delete_then_get (env : Env) (d : Defaults) (o : Oracle)
    (params : List (String × String)) (body : String) (rows : Store) (id : UUID)
    (hid : env.uuidParse ((Ctx.request params body).Params "id") = some id)
    (hok : (deleteTodo env (entClient d o) (Ctx.request params body) rows).1.status = 200) :
    (deleteTodo env (entClient d o) (Ctx.request params body) rows).1
      = ⟨200, .map [("result", "Todo deleted")]⟩ ∧
    (∃ t ∈ rows, t.id = id) ∧
    (∀ (o2 : Oracle) (params2 : List (String × String)) (body2 : String),
      env.uuidParse ((Ctx.request params2 body2).Params "id") = some id →
      getTodo env (entClient d o2) (Ctx.request params2 body2)
          (deleteTodo env (entClient d o) (Ctx.request params body) rows).2
        = (⟨404, .map [("error", "Todo not found")]⟩,
            (deleteTodo env (entClient d o) (Ctx.request params body) rows).2)) ∧
    (∀ (o2 : Oracle) (params2 : List (String × String)) (body2 : String) (id2 : UUID),
      env.uuidParse ((Ctx.request params2 body2).Params "id") = some id2 → id2 ≠ id →
      (getTodo env (entClient d o2) (Ctx.request params2 body2)
          (deleteTodo env (entClient d o) (Ctx.request params body) rows).2).1
        = (getTodo env (entClient d o2) (Ctx.request params2 body2) rows).1) ∧
    (∀ (o2 : Oracle) (params2 : List (String × String)) (body2 : String) (t : Todo),
      env.uuidParse ((Ctx.request params2 body2).Params "id") = some t.id → t.id ≠ id →
      o2.fault = false → Store.lookup rows t.id = some t →
      (getTodo env (entClient d o2) (Ctx.request params2 body2)
          (deleteTodo env (entClient d o) (Ctx.request params body) rows).2).1
        = ⟨200, .todo t⟩) := by
  have hdel := deleteTodo_ok env d o params body rows id hid hok
  rw [hdel]
  refine ⟨rfl, ?_, ?_, ?_, ?_⟩
  · cases hl : Store.lookup rows id with
    | none =>
      simp only [deleteTodo, hid, entClient, entDeleteOneExec, hl] at hok
      cases ho : o.fault <;> rw [ho] at hok <;>
        simp [Ctx.JSON, Ctx.Status, StatusNotFound] at hok
    | some t => exact ⟨t, (lookup_id rows id t hl).2, (lookup_id rows id t hl).1⟩
  · intro o2 params2 body2 hid2
    cases ho2 : o2.fault
    · rw [getTodo_healthy env d o2 params2 body2 _ id hid2 ho2, lookup_filter_self]
    · rw [getTodo_failing env d o2 params2 body2 _ id hid2 ho2]
  · intro o2 params2 body2 id2 hid2 hne
    cases ho2 : o2.fault
    · rw [getTodo_healthy env d o2 params2 body2 _ id2 hid2 ho2,
        getTodo_healthy env d o2 params2 body2 _ id2 hid2 ho2, lookup_filter_other rows id id2 hne]
      cases Store.lookup rows id2 <;> rfl
    · rw [getTodo_failing env d o2 params2 body2 _ id2 hid2 ho2,
        getTodo_failing env d o2 params2 body2 _ id2 hid2 ho2]
  · intro o2 params2 body2 t hid2 hne ho2 hl
    rw [getTodo_healthy env d o2 params2 body2 _ t.id hid2 ho2,
      lookup_filter_other rows id t.id hne, hl]

theorem C4_delete_then_get_witness :
    sampleEnv.uuidParse ((Ctx.request [("id", "1")] "").Params "id") = some ⟨1⟩ ∧
    (deleteTodo sampleEnv (entClient sampleDefaults healthy) (Ctx.request [("id", "1")] "")
      sampleRows).1.status = 200 ∧
    getTodo sampleEnv (entClient sampleDefaults healthy) (Ctx.request [("id", "1")] "")
        (deleteTodo sampleEnv (entClient sampleDefaults healthy) (Ctx.request [("id", "1")] "")
          sampleRows).2
      = (⟨404, .map [("error", "Todo not found")]⟩,
          (deleteTodo sampleEnv (entClient sampleDefaults healthy) (Ctx.request [("id", "1")] "")
            sampleRows).2) ∧
    (getTodo sampleEnv (entClient sampleDefaults healthy) (Ctx.request [("id", "2")] "")
        (deleteTodo sampleEnv (entClient sampleDefaults healthy) (Ctx.request [("id", "1")] "")
          sampleRows).2).1
      = ⟨200, .todo ⟨⟨2⟩, "eggs", false, ⟨20⟩⟩⟩ :=
  ⟨by decide, by decide,
    (C4_delete_then_get sampleEnv sampleDefaults healthy [("id", "1")] "" sampleRows ⟨1⟩
      (by decide) (by decide)).2.2.1 healthy [("id", "1")] "" (by decide),
    (C4_delete_then_get sampleEnv sampleDefaults healthy [("id", "1")] "" sampleRows ⟨1⟩
      (by decide) (by decide)).2.2.2.2 healthy [("id", "2")] "" ⟨⟨2⟩, "eggs", false, ⟨20⟩⟩
      (by decide) (by decide) rfl (by decide)⟩

/-! ## Updating -/

/-- C5: for every table, every well-formed id of a row in it and every body that
parses, a successful `updateTodo` (status 200) answers and stores a Todo whose id and
created_at are those the row had before, whatever id and created_at the body gives;
every row of the table keeps its id and its created_at, and every row with another id
is left as it was. -/
theorem C5_update_frame (env : Env) (d : Defaults) (o : Oracle)
    (params : List (String × String)) (body : String) (rows : Store) (id : UUID)
    (j : TodoJSON) (old : Todo)
    (hid : env.uuidParse ((Ctx.request params body).Params "id") = some id)
    (hbody : env.decode body = some j)
    (hold : Store.lookup rows id = some old)
    (hok : (updateTodo env (entClient d o) (Ctx.request params body) rows).1.status = 200) :
    ∃ (new : Todo) (rows2 : Store),
      updateTodo env (entClient d o) (Ctx.request params body) rows = (⟨200, .todo new⟩, rows2) ∧
      Store.lookup rows2 id = some new ∧
      new.id = old.id ∧
      new.created_at = old.created_at ∧
      rows2.map Todo.id = rows.map Todo.id ∧
      rows2.map Todo.created_at = rows.map Todo.created_at ∧
      (∀ id2, id2 ≠ id → Store.lookup rows2 id2 = Store.lookup rows id2) ∧
      (∀ t ∈ rows, t.id ≠ id → t ∈ rows2) ∧
      (∀ t ∈ rows2, t.id ≠ id → t ∈ rows) := by
  have hupd := updateTodo_ok env d o params body rows id j old hid hbody hold hok
  refine ⟨_, _, hupd, lookup_map_self rows id _ _ old hold, rfl, rfl, ?_, ?_,
    fun id2 hne => lookup_map_other rows id id2 _ _ hne, ?_, ?_⟩
  · rw [List.map_map]
    apply List.map_congr_left
    intro r _
    by_cases hr : r.id = id <;> simp [hr]
  · rw [List.map_map]
    apply List.map_congr_left
    intro r _
    by_cases hr : r.id = id <;> simp [hr]
  · intro t ht hne
    exact List.mem_map.mpr ⟨t, ht, by rw [if_neg hne]⟩
  · intro t ht hne
    obtain ⟨r, hr, e⟩ := List.mem_map.mp ht
    by_cases hrid : r.id = id
    · rw [if_pos hrid] at e
      exact absurd (by rw [← e]; exact hrid) hne
    · rw [if_neg hrid] at e
      rw [← e]
      exact hr

theorem C5_update_frame_witness :
    sampleEnv.uuidParse ((Ctx.request [("id", "1")] "all").Params "id") = some ⟨1⟩ ∧
    sampleEnv.decode "all" = some ⟨some ⟨9⟩, some "tea", some true, some ⟨77⟩⟩ ∧
    Store.lookup sampleRows ⟨1⟩ = some ⟨⟨1⟩, "bread", true, ⟨10⟩⟩ ∧
    (updateTodo sampleEnv (entClient sampleDefaults healthy) (Ctx.request [("id", "1")] "all")
      sampleRows).1.status = 200 ∧
    ∃ (new : Todo) (rows2 : Store),
      updateTodo sampleEnv (entClient sampleDefaults healthy) (Ctx.request [("id", "1")] "all")
        sampleRows = (⟨200, .todo new⟩, rows2) ∧
      Store.lookup rows2 ⟨1⟩ = some new ∧
      new.id = (⟨⟨1⟩, "bread", true, ⟨10⟩⟩ : Todo).id ∧
      new.created_at = (⟨⟨1⟩, "bread", true, ⟨10⟩⟩ : Todo).created_at ∧
      rows2.map Todo.id = sampleRows.map Todo.id ∧
      rows2.map Todo.created_at = sampleRows.map Todo.created_at ∧
      (∀ id2, id2 ≠ ⟨1⟩ → Store.lookup rows2 id2 = Store.lookup sampleRows id2) ∧
      (∀ t ∈ sampleRows, t.id ≠ ⟨1⟩ → t ∈ rows2) ∧
      (∀ t ∈ rows2, t.id ≠ ⟨1⟩ → t ∈ sampleRows) :=
  ⟨by decide, by decide, by decide, by decide,
    C5_update_frame sampleEnv sampleDefaults healthy [("id", "1")] "all" sampleRows ⟨1⟩
      ⟨some ⟨9⟩, some "tea", some true, some ⟨77⟩⟩ ⟨⟨1⟩, "bread", true, ⟨10⟩⟩
      (by decide) (by decide) (by decide) (by decide)⟩

/-- C10: `updateTodo` replaces, it does not patch: for every row in the table and every
body that parses, after a successful update (status 200) the stored task and completed
are the values of the parsed body, a field the body leaves out counting as its zero
value; so a body without completed stores completed = false, also when it was true,
and a body without task stores the empty task. -/
theorem C10_update_replaces (env : Env) (d : Defaults) (o : Oracle)
    (params : List (String × String)) (body : String) (rows : Store) (id : UUID)
    (j : TodoJSON) (old : Todo)
    (hid : env.uuidParse ((Ctx.request params body).Params "id") = some id)
    (hbody : env.decode body = some j)
    (hold : Store.lookup rows id = some old)
    (hok : (updateTodo env (entClient d o) (Ctx.request params body) rows).1.status = 200) :
    ∃ (new : Todo) (rows2 : Store),
      updateTodo env (entClient d o) (Ctx.request params body) rows = (⟨200, .todo new⟩, rows2) ∧
      Store.lookup rows2 id = some new ∧
      (∀ t, (Ctx.request params body).BodyParser env Todo.zero = some t →
        new.task = t.task ∧ new.completed = t.completed) ∧
      new.task = j.task.getD "" ∧
      new.completed = j.completed.getD false ∧
      (j.completed = none → new.completed = false) ∧
      (j.task = none → new.task = "") := by
  have hupd := updateTodo_ok env d o params body rows id j old hid hbody hold hok
  refine ⟨_, _, hupd, lookup_map_self rows id _ _ old hold, ?_, rfl, rfl, ?_, ?_⟩
  · intro t ht
    have hb : (Ctx.request params body).BodyParser env Todo.zero
        = some (j.assign Todo.zero) := by
      simp [Ctx.BodyParser, Ctx.request, hbody]
    rw [hb] at ht
    cases ht
    exact ⟨rfl, rfl⟩
  · intro hc
    simp [hc]
  · intro hc
    simp [hc]

theorem C10_update_replaces_witness :
    sampleEnv.uuidParse ((Ctx.request [("id", "1")] "none").Params "id") = some ⟨1⟩ ∧
    sampleEnv.decode "none" = some ⟨none, none, none, none⟩ ∧
    Store.lookup sampleRows ⟨1⟩ = some ⟨⟨1⟩, "bread", true, ⟨10⟩⟩ ∧
    (updateTodo sampleEnv (entClient sampleDefaults healthy) (Ctx.request [("id", "1")] "none")
      sampleRows).1.status = 200 ∧
    ∃ (new : Todo) (rows2 : Store),
      updateTodo sampleEnv (entClient sampleDefaults healthy) (Ctx.request [("id", "1")] "none")
        sampleRows = (⟨200, .todo new⟩, rows2) ∧
      Store.lookup rows2 ⟨1⟩ = some new ∧
      (∀ t, (Ctx.request [("id", "1")] "none").BodyParser sampleEnv Todo.zero = some t →
        new.task = t.task ∧ new.completed = t.completed) ∧
      new.task = (none : Option String).getD "" ∧
      new.completed = (none : Option Bool).getD false ∧
      ((none : Option Bool) = none → new.completed = false) ∧
      ((none : Option String) = none → new.task = "") :=
  ⟨by decide, by decide, by decide, by decide,
    C10_update_replaces sampleEnv sampleDefaults healthy [("id", "1")] "none" sampleRows ⟨1⟩
      ⟨none, none, none, none⟩ ⟨⟨1⟩, "bread", true, ⟨10⟩⟩
      (by decide) (by decide) (by decide) (by decide)⟩

end TodoApp
